import Mathlib

/-!
Verification of the gap_analyzer service (Python, FastAPI/RabbitMQ worker).

Shallow embedding of the orchestration pipeline in app/services/gap_analysis_service.py,
the search/deduplication layer in app/services/search_service.py, the AI layer in
app/services/gemini_service.py and the extraction layer in app/services/grobid_client.py.

External collaborators (database commits, HTTP calls, the Gemini model) are modelled as
oracles: Except-valued behaviours supplied as arguments, so that every exception path of
the source is a reachable branch of the embedding.  Wall-clock timestamps are abstracted
to a Bool flag recording that the field was written.

The helper module app/utils/helpers.py (clean_text, calculate_similarity, retry_async,
RateLimiter, AsyncBatchProcessor) is not part of the sources; the definitions that stand
in for it are modelled from the specification and carry a doc comment saying so.
-/

namespace GapAnalyzer

/-! ## Search results and title similarity (search_service.py, helpers modelled from spec) -/

/-- PaperSearchResult from app/schemas/gap_schemas.py. -/
structure PaperSearchResult where
  title : String
  abstract : Option String := none
  doi : Option String := none
  url : Option String := none
  pdf_url : Option String := none
  publication_date : Option String := none
  authors : List String := []
  venue : Option String := none
deriving DecidableEq

/-- Modelled from the spec: title normalization of the Deduplicator (section 4.4):
case-fold, strip punctuation, collapse whitespace.  Stands in for
clean_text(title).lower() of app/utils/helpers.py, which is not under src.
Every non-alphanumeric character becomes a space; tokenisation later drops
empty fragments, which collapses whitespace runs. -/
def normalizeTitle (t : String) : String :=
  (t.toList.map (fun c => if c.isAlphanum then c.toLower else ' ')).asString

/-- Word tokens of a normalized string: split on spaces, drop empty fragments. -/
def wordTokens (s : String) : List String :=
  ((normalizeTitle s).splitOn " ").filter (fun t => t ≠ "")

/-- Modelled from the spec: the deterministic token-set similarity in [0,1] required by
section 4.4 (Jaccard over word tokens, the recommended choice of Design Note 5).
Stands in for calculate_similarity of app/utils/helpers.py, which is not under src.
Two titles with no tokens at all are identical after normalization, hence similarity 1. -/
def calculate_similarity (a b : String) : ℚ :=
  if ((wordTokens a).toFinset ∪ (wordTokens b).toFinset).card = 0 then 1
  else (((wordTokens a).toFinset ∩ (wordTokens b).toFinset).card : ℚ) /
       (((wordTokens a).toFinset ∪ (wordTokens b).toFinset).card : ℚ)

theorem calculate_similarity_comm (a b : String) :
    calculate_similarity a b = calculate_similarity b a := by
  unfold calculate_similarity
  rw [Finset.union_comm ((wordTokens a).toFinset) ((wordTokens b).toFinset),
      Finset.inter_comm ((wordTokens a).toFinset) ((wordTokens b).toFinset)]

/-- The duplicate test of WebSearchService._deduplicate_results: similarity of the two
normalized titles strictly above the 0.8 threshold. -/
def isDuplicateOf (r e : PaperSearchResult) : Bool :=
  decide ((4 : ℚ) / 5 < calculate_similarity (normalizeTitle r.title) (normalizeTitle e.title))

theorem isDuplicateOf_comm (a b : PaperSearchResult) :
    isDuplicateOf a b = isDuplicateOf b a := by
  unfold isDuplicateOf
  rw [calculate_similarity_comm]

/-- The accumulation loop of WebSearchService._deduplicate_results: walk the input in
order, keep a result unless it is a duplicate of an already accepted one. -/
def dedupGo (unique : List PaperSearchResult) :
    List PaperSearchResult → List PaperSearchResult
  | [] => unique
  | r :: rest =>
    if unique.any (fun e => isDuplicateOf r e) then dedupGo unique rest
    else dedupGo (unique ++ [r]) rest

/-- WebSearchService._deduplicate_results of app/services/search_service.py. -/
def deduplicate_results (results : List PaperSearchResult) : List PaperSearchResult :=
  dedupGo [] results

theorem dedupGo_shape (rs : List PaperSearchResult) :
    ∀ acc, ∃ t, dedupGo acc rs = acc ++ t ∧ t.Sublist rs := by
  induction rs with
  | nil => intro acc; exact ⟨[], by simp [dedupGo]⟩
  | cons r rest ih =>
    intro acc
    by_cases h : acc.any (fun e => isDuplicateOf r e)
    · obtain ⟨t, ht, hs⟩ := ih acc
      exact ⟨t, by simp [dedupGo, h, ht], hs.cons r⟩
    · obtain ⟨t, ht, hs⟩ := ih (acc ++ [r])
      refine ⟨r :: t, ?_, hs.cons₂ r⟩
      simp [dedupGo, h, ht]

theorem dedupGo_pairwise (rs : List PaperSearchResult) :
    ∀ acc, acc.Pairwise (fun a b => isDuplicateOf b a = false) →
      (dedupGo acc rs).Pairwise (fun a b => isDuplicateOf b a = false) := by
  induction rs with
  | nil => intro acc h; simpa [dedupGo] using h
  | cons r rest ih =>
    intro acc h
    by_cases hdup : acc.any (fun e => isDuplicateOf r e)
    · simpa [dedupGo, hdup] using ih acc h
    · simp only [dedupGo, hdup, if_false]
      refine ih (acc ++ [r]) ?_
      rw [List.pairwise_append]
      refine ⟨h, by simp, ?_⟩
      intro a ha b hb
      simp only [List.mem_singleton] at hb
      subst hb
      have := List.any_eq_false.mp (Bool.eq_false_iff.mpr hdup) a ha
      simpa using this

theorem dedupGo_snoc (rs : List PaperSearchResult) (r : PaperSearchResult) :
    ∀ acc, dedupGo acc (rs ++ [r]) =
      (if (dedupGo acc rs).any (fun e => isDuplicateOf r e) then dedupGo acc rs
       else dedupGo acc rs ++ [r]) := by
  induction rs with
  | nil => intro acc; simp [dedupGo]
  | cons x rest ih =>
    intro acc
    by_cases h : acc.any (fun e => isDuplicateOf x e) <;>
      simp [dedupGo, h, ih]

/-- C3: deduplication returns the subsequence of the input in first-occurrence order;
the first element of the input is always kept; any two accepted results have title
similarity at most 0.8; and a result appended to the input is dropped exactly when its
similarity to some previously accepted result strictly exceeds 0.8, accepted otherwise. -/
theorem deduplicate_results_spec (rs : List PaperSearchResult) (r : PaperSearchResult) :
    (deduplicate_results rs).Sublist rs
    ∧ (deduplicate_results rs).head? = rs.head?
    ∧ (deduplicate_results rs).Pairwise (fun a b =>
        ¬ ((4 : ℚ) / 5 <
            calculate_similarity (normalizeTitle a.title) (normalizeTitle b.title)))
    ∧ deduplicate_results (rs ++ [r]) =
        (if (deduplicate_results rs).any (fun e => isDuplicateOf r e)
         then deduplicate_results rs
         else deduplicate_results rs ++ [r]) := by
  refine ⟨?_, ?_, ?_, ?_⟩
  · obtain ⟨t, ht, hs⟩ := dedupGo_shape rs []
    simpa [deduplicate_results, ht] using hs
  · cases rs with
    | nil => rfl
    | cons x rest =>
      obtain ⟨t, ht, _⟩ := dedupGo_shape rest [x]
      simp [deduplicate_results, dedupGo, ht]
  · have h := dedupGo_pairwise rs [] (by simp)
    refine (h.imp ?_)
    intro a b hab
    have : isDuplicateOf a b = false := by rw [isDuplicateOf_comm]; exact hab
    simpa [isDuplicateOf] using this
  · simpa [deduplicate_results] using dedupGo_snoc rs r []

/-! ## search_papers (search_service.py) -/

/-- The merge loop of WebSearchService.search_papers: asyncio.gather with
return_exceptions=True yields one Except per provider, in task submission order
(Semantic Scholar, CrossRef, arXiv); lists are concatenated, exceptions are logged
and skipped. -/
def collectSearchResults (resultsLists : List (Except String (List PaperSearchResult))) :
    List PaperSearchResult :=
  resultsLists.foldl
    (fun acc r => match r with
      | Except.ok l => acc ++ l
      | Except.error _ => acc) []

/-- WebSearchService.search_papers of app/services/search_service.py.  The three
provider calls are oracles; the result is the deduplicated merge truncated to
max_results.  The function is total: a provider failure never propagates. -/
def search_papers (semanticScholar crossref arxiv : Except String (List PaperSearchResult))
    (max_results : Nat) : List PaperSearchResult :=
  (deduplicate_results (collectSearchResults [semanticScholar, crossref, arxiv])).take
    max_results

/-- The result list a provider contributed: its list if it succeeded, nothing if it
failed. -/
def okResults : Except String (List PaperSearchResult) → List PaperSearchResult
  | Except.ok l => l
  | Except.error _ => []

/-- C6: search_papers merges the three providers' results in provider order then
within-provider order, deduplicates and truncates to max_results; a failing provider
contributes nothing and does not remove the others' results; in particular with one
provider raising on every query the other two providers' merged results survive, and
search_papers returns a value for every behaviour of the providers. -/
theorem search_papers_merge (s c a : Except String (List PaperSearchResult))
    (e : String) (l₂ l₃ : List PaperSearchResult) (m : Nat) :
    search_papers s c a m
      = (deduplicate_results (okResults s ++ okResults c ++ okResults a)).take m
    ∧ search_papers (Except.error e) (Except.ok l₂) (Except.ok l₃) m
      = (deduplicate_results (l₂ ++ l₃)).take m := by
  constructor
  · cases s <;> cases c <;> cases a <;>
      simp [search_papers, collectSearchResults, okResults, List.foldl]
  · simp [search_papers, collectSearchResults, okResults, List.foldl]

/-! ## Gemini AI layer (gemini_service.py) -/

/-- InitialGap from app/schemas/gap_schemas.py. -/
structure InitialGap where
  name : String
  description : String
  category : String
  reasoning : String
  evidence : String
deriving DecidableEq

/-- An entry of supporting_papers / conflicting_papers in a ValidationResult
(a dict with title and reason in the source). -/
structure PaperRef where
  title : String
  reason : String
deriving DecidableEq

/-- ValidationResult from app/schemas/gap_schemas.py. -/
structure ValidationResult where
  is_valid : Bool
  confidence : ℚ
  reasoning : String
  should_modify : Bool
  modification_suggestion : Option String := none
  supporting_papers : List PaperRef := []
  conflicting_papers : List PaperRef := []
deriving DecidableEq

/-- GeminiService.validate_gap of app/services/gemini_service.py: the model call
(rate-limited, wrapped in retry_async) is an oracle; any error is caught inside the
method and replaced by the fail-open default verdict with confidence 0.3. -/
def gemini_validate_gap (modelCall : Except String ValidationResult) : ValidationResult :=
  match modelCall with
  | Except.ok v => v
  | Except.error _ =>
    { is_valid := true
      confidence := 3 / 10
      reasoning := "Could not validate due to error"
      should_modify := false }

/-- Python str.strip() then str.strip of the double-quote character, as applied to the
model's response text in GeminiService.generate_search_query. -/
def stripQuotes (s : String) : String :=
  ((((s.trim).toList.dropWhile (fun c => c = '"')).reverse.dropWhile
      (fun c => c = '"')).reverse).asString

/-- Observable outcome of one generate_search_query invocation: the query returned, how
many model calls were made, and how many rate-limiter slots were acquired. -/
structure SearchQueryCall where
  query : String
  modelCalls : Nat
  rateLimiterAcquisitions : Nat
deriving DecidableEq

/-- GeminiService.generate_search_query of app/services/gemini_service.py.  The model
behaviour is an oracle giving the outcome of the n-th model call.  The source makes
exactly one model call inside a try block — unlike generate_initial_gaps, validate_gap
and expand_gap_details it carries no retry_async decorator and never calls
rate_limiter.wait_if_needed — and on any error falls back to the deterministic query
built from the gap's name and category.  The function is total: it never raises. -/
def generate_search_query (modelCall : Nat → Except String String) (gap : InitialGap) :
    SearchQueryCall :=
  match modelCall 0 with
  | Except.ok text =>
    { query := stripQuotes text, modelCalls := 1, rateLimiterAcquisitions := 0 }
  | Except.error _ =>
    { query := gap.name ++ " " ++ gap.category
      modelCalls := 1
      rateLimiterAcquisitions := 0 }

/-- Modelled from the spec: the Retry Policy of section 4.2 (retry_async in
app/utils/helpers.py is not under src): up to the given number of sequential attempts,
first success wins, the final failure propagates. -/
def retryCall (op : Nat → Except String String) (start : Nat) :
    Nat → Except String String
  | 0 => Except.error "no attempts"
  | 1 => op start
  | Nat.succ n =>
    match op start with
    | Except.ok v => Except.ok v
    | Except.error _ => retryCall op (start + 1) n

/-- Concrete gap used in the generate_search_query counterexample. -/
def c8Gap : InitialGap :=
  { name := "federated pruning"
    description := "d"
    category := "methodological"
    reasoning := "r"
    evidence := "e" }

/-- Concrete model behaviour for the counterexample: the first call fails, every later
call succeeds — a retried call recovers, a single call does not. -/
def c8Oracle : Nat → Except String String
  | 0 => Except.error "transient failure"
  | _ => Except.ok "retried query"

/-- C8 counterexample: the claim says the query generation is retried (and
rate-limited).  With a model that fails once and then succeeds, the spec's Retry Policy
(3 attempts) recovers the successful query, but generate_search_query makes exactly one
model call, acquires no rate-limiter slot, and returns the fallback query instead. -/
theorem generate_search_query_no_retry_cex :
    retryCall c8Oracle 0 3 = Except.ok "retried query"
    ∧ generate_search_query c8Oracle c8Gap =
        { query := "federated pruning methodological"
          modelCalls := 1
          rateLimiterAcquisitions := 0 }
    ∧ "federated pruning methodological" ≠ "retried query" := by
  exact ⟨rfl, by decide, by decide⟩

/-- C8 amended: the validation search query is generated by a single AI call without
retry and without rate limiting; on failure of that call the query deterministically
falls back to the gap's name and category, and generate_search_query never raises
(it is total and always returns exactly one query after exactly one model call). -/
theorem generate_search_query_fallback (modelCall : Nat → Except String String)
    (gap : InitialGap) :
    (∀ e, modelCall 0 = Except.error e →
        (generate_search_query modelCall gap).query = gap.name ++ " " ++ gap.category)
    ∧ (∀ t, modelCall 0 = Except.ok t →
        (generate_search_query modelCall gap).query = stripQuotes t)
    ∧ (generate_search_query modelCall gap).modelCalls = 1
    ∧ (generate_search_query modelCall gap).rateLimiterAcquisitions = 0 := by
  refine ⟨?_, ?_, ?_, ?_⟩
  · intro e he; simp [generate_search_query, he]
  · intro t ht; simp [generate_search_query, ht]
  · cases h : modelCall 0 <;> simp [generate_search_query, h]
  · cases h : modelCall 0 <;> simp [generate_search_query, h]

/-- Witness for generate_search_query_fallback at the concrete failing model. -/
theorem generate_search_query_fallback_witness :
    (generate_search_query c8Oracle c8Gap).query = c8Gap.name ++ " " ++ c8Gap.category := by
  exact (generate_search_query_fallback c8Oracle c8Gap).1 "transient failure" rfl

/-! ## Extraction layer (grobid_client.py) -/

/-- ExtractedContent from app/schemas/gap_schemas.py.  Section bodies are title/content
pairs as produced by GrobidClient._extract_section. -/
structure ExtractedContent where
  title : String
  abstract : Option String := none
  sections : List (String × String) := []
  conclusion : Option String := none
  methods : Option String := none
  results : Option String := none
  extraction_success : Bool := true
  error : Option String := none
deriving DecidableEq

/-- GrobidClient._create_extraction_from_metadata: the placeholder used for papers
without a PDF URL. -/
def metadata_extraction (p : PaperSearchResult) : ExtractedContent :=
  { title := p.title
    abstract := p.abstract
    sections := []
    extraction_success := false
    error := some "No PDF available" }

/-- One task of GrobidClient.extract_batch: papers with a truthy pdf_url go through
extract_from_url (an oracle here — that method already catches its own errors and
returns a success=false record, but gather(return_exceptions=True) also tolerates a
raised exception, mapped to a placeholder carrying the paper's title); papers whose
pdf_url is falsy — None or the empty string, per the source's truthiness check — get
the metadata placeholder. -/
def extract_one (oracle : PaperSearchResult → Except String ExtractedContent)
    (p : PaperSearchResult) : ExtractedContent :=
  match p.pdf_url with
  | none => metadata_extraction p
  | some url =>
    if url = "" then metadata_extraction p
    else
      match oracle p with
      | Except.ok c => c
      | Except.error e =>
        { title := p.title, extraction_success := false, error := some e }

/-- GrobidClient.extract_batch of app/services/grobid_client.py. -/
def extract_batch (oracle : PaperSearchResult → Except String ExtractedContent)
    (papers : List PaperSearchResult) : List ExtractedContent :=
  papers.map (extract_one oracle)

/-- C9: batch extraction returns exactly one record per input, in input order (the i-th
output is the extraction of the i-th input, so zipping inputs with outputs is
position-aligned), and never raises; an absent PDF URL — None or the falsy empty
string — yields the success=false placeholder with error "No PDF available", and a
raised per-result extraction failure yields a success=false record carrying the error
message, at that result's position. -/
theorem extract_batch_aligned (oracle : PaperSearchResult → Except String ExtractedContent)
    (papers : List PaperSearchResult) (i : Nat) :
    (extract_batch oracle papers).length = papers.length
    ∧ (extract_batch oracle papers).get? i = (papers.get? i).map (extract_one oracle)
    ∧ (∀ p : PaperSearchResult, (p.pdf_url = none ∨ p.pdf_url = some "") →
        extract_one oracle p = metadata_extraction p
        ∧ (extract_one oracle p).extraction_success = false
        ∧ (extract_one oracle p).error = some "No PDF available")
    ∧ (∀ (p : PaperSearchResult) (u e : String),
        p.pdf_url = some u → u ≠ "" → oracle p = Except.error e →
        (extract_one oracle p).extraction_success = false
        ∧ (extract_one oracle p).error = some e) := by
  refine ⟨by simp [extract_batch], by simp [extract_batch], ?_, ?_⟩
  · rintro p (hp | hp) <;>
    · refine ⟨by simp [extract_one, hp], ?_, ?_⟩ <;>
        simp [extract_one, hp, metadata_extraction]
  · intro p u e hp hu he
    constructor <;> simp [extract_one, hp, hu, he]

/-- Concrete papers for the extract_batch witness: one without a PDF URL, one whose
extraction raises. -/
def c9NoPdf : PaperSearchResult :=
  { title := "paper without pdf", abstract := some "abs" }

def c9WithPdf : PaperSearchResult :=
  { title := "paper with pdf", pdf_url := some "http://x/p.pdf" }

def c9Oracle : PaperSearchResult → Except String ExtractedContent :=
  fun _ => Except.error "download failed"

/-- Witness for extract_batch_aligned on a concrete two-paper batch. -/
theorem extract_batch_aligned_witness :
    (extract_batch c9Oracle [c9NoPdf, c9WithPdf]).length = 2
    ∧ (extract_one c9Oracle c9NoPdf).error = some "No PDF available"
    ∧ (extract_one c9Oracle c9WithPdf).error = some "download failed" := by
  have h := extract_batch_aligned c9Oracle [c9NoPdf, c9WithPdf] 0
  exact ⟨h.1, (h.2.2.1 c9NoPdf (Or.inl rfl)).2.2,
    (h.2.2.2 c9WithPdf "http://x/p.pdf" "download failed" rfl (by decide) rfl).2⟩

/-! ## Gap records and per-gap validation (gap_analysis_service.py) -/

/-- GapValidationStatus from app/model/gap_models.py (used throughout
gap_analysis_service.py). -/
inductive GapValidationStatus
  | INITIAL
  | VALIDATING
  | VALID
  | INVALID
  | MODIFIED
deriving DecidableEq

/-- One entry of a gap's modification history ({timestamp, original, modification} in
the source; the timestamp is abstracted away). -/
structure ModificationEntry where
  original : String
  modification : Option String
deriving DecidableEq

/-- A suggested topic row (GapTopic of app/model/gap_models.py) as read back in
_prepare_response. -/
structure GapTopic where
  title : Option String := none
  description : Option String := none
  research_questions : List String := []
  methodology_suggestions : Option String := none
  expected_outcomes : Option String := none
  relevance_score : Option ℚ := none
deriving DecidableEq

/-- An evidence anchor dict built in _expand_gap_details.  The source reads
paper.get('url', '') from the supporting/conflicting dicts, which carry only title and
reason, so the url is always the empty string. -/
structure EvidenceAnchor where
  title : String
  url : String
  anchor_type : String
deriving DecidableEq

/-- ResearchGap of app/model/gap_models.py, restricted to the fields
gap_analysis_service.py reads or writes.  Timestamp fields are abstracted to a flag
recording that they were set; the GapValidationPaper rows inserted in _validate_gap are
not modelled (no claim mentions them). -/
structure ResearchGap where
  gap_analysis_id : String
  gap_id : String
  order_index : Nat
  name : String
  description : String
  category : String
  initial_reasoning : String := ""
  initial_evidence : String := ""
  validation_status : GapValidationStatus
  validation_query : Option String := none
  validation_confidence : Option ℚ := none
  validation_reasoning : Option String := none
  validated_at_set : Bool := false
  modification_history : List ModificationEntry := []
  supporting_papers : List PaperRef := []
  conflicting_papers : List PaperRef := []
  papers_analyzed_count : Nat := 0
  potential_impact : Option String := none
  research_hints : Option String := none
  implementation_suggestions : Option String := none
  risks_and_challenges : Option String := none
  required_resources : Option String := none
  estimated_difficulty : Option String := none
  estimated_timeline : Option String := none
  suggested_topics : List GapTopic := []
  evidence_anchors : List EvidenceAnchor := []
deriving DecidableEq

/-- GapAnalysisService._create_gap_record: a fresh INITIAL record for one candidate
(the generated uuid is a parameter). -/
def create_gap_record (analysisId gapId : String) (gap : InitialGap) (index : Nat) :
    ResearchGap :=
  { gap_analysis_id := analysisId
    gap_id := gapId
    order_index := index
    name := gap.name
    description := gap.description
    category := gap.category
    initial_reasoning := gap.reasoning
    initial_evidence := gap.evidence
    validation_status := GapValidationStatus.INITIAL }

/-- Collaborator behaviour during one _validate_gap call: the search-query generation,
the paper search, the batch extraction and the AI verdict, each of which may raise
(covering the database commits interleaved with them; the catch-all of _validate_gap
handles any of these). -/
structure ValidateOracle where
  searchQuery : Except String String
  searchResults : Except String (List PaperSearchResult)
  extractBatchCall : Except String (List ExtractedContent)
  verdict : Except String ValidationResult

/-- The except branch of GapAnalysisService._validate_gap: fail open with status VALID,
confidence 0.3 and the error description as reasoning, reporting the gap as valid. -/
def failOpen (gr : ResearchGap) (e : String) : ResearchGap × Bool :=
  ({ gr with
      validation_status := GapValidationStatus.VALID
      validation_confidence := some (3 / 10)
      validation_reasoning := some ("Validation error: " ++ e) }, true)

/-- GapAnalysisService._validate_gap of app/services/gap_analysis_service.py.  Returns
the updated record and the boolean the method returns.  Mirrors the source order:
status VALIDATING, query generation, search, the zero-result early return, batch
extraction, papers_analyzed_count, the AI verdict, then the verdict branch; any error
raised along the way lands in failOpen.  The function is total: it never raises. -/
def validate_gap (o : ValidateOracle) (gap : InitialGap) (gr0 : ResearchGap) :
    ResearchGap × Bool :=
  let gr1 := { gr0 with validation_status := GapValidationStatus.VALIDATING }
  match o.searchQuery with
  | Except.error e => failOpen gr1 e
  | Except.ok q =>
    let gr2 := { gr1 with validation_query := some q }
    match o.searchResults with
    | Except.error e => failOpen gr2 e
    | Except.ok [] =>
      ({ gr2 with
          validation_status := GapValidationStatus.VALID
          validation_confidence := some (1 / 2)
          validated_at_set := true }, true)
    | Except.ok related =>
      match o.extractBatchCall with
      | Except.error e => failOpen gr2 e
      | Except.ok _contents =>
        let gr3 := { gr2 with papers_analyzed_count := related.length }
        match o.verdict with
        | Except.error e => failOpen gr3 e
        | Except.ok v =>
          let gr4 := { gr3 with
            validation_confidence := some v.confidence
            validation_reasoning := some v.reasoning
            validated_at_set := true }
          if v.is_valid then
            let gr5 :=
              if v.should_modify then
                let gr5a := { gr4 with
                  validation_status := GapValidationStatus.MODIFIED
                  modification_history :=
                    [{ original := gap.description
                       modification := v.modification_suggestion }] }
                -- the source guards the replacement with a truthiness check, so an
                -- empty-string suggestion (falsy) leaves the description unchanged
                match v.modification_suggestion with
                | some s => if s = "" then gr5a else { gr5a with description := s }
                | none => gr5a
              else { gr4 with validation_status := GapValidationStatus.VALID }
            ({ gr5 with
                supporting_papers := v.supporting_papers
                conflicting_papers := v.conflicting_papers }, true)
          else
            ({ gr4 with validation_status := GapValidationStatus.INVALID }, false)

/-- The enrichment dict produced by GeminiService.expand_gap_details (already
defaulted on its own errors in that method). -/
structure ExpandedDetails where
  potential_impact : Option String := none
  research_hints : Option String := none
  implementation_suggestions : Option String := none
  risks_and_challenges : Option String := none
  required_resources : Option String := none
  estimated_difficulty : Option String := none
  estimated_timeline : Option String := none
  suggested_topics : List GapTopic := []

/-- GapAnalysisService._expand_gap_details: on success the expansion fields, topics and
the evidence anchors rebuilt from the supporting/conflicting lists are written; its
catch-all swallows any error, leaving the record as it was (errors are only logged). -/
def expand_gap_details (details : Except String ExpandedDetails) (gr : ResearchGap) :
    ResearchGap :=
  match details with
  | Except.error _ => gr
  | Except.ok d =>
    { gr with
        potential_impact := d.potential_impact
        research_hints := d.research_hints
        implementation_suggestions := d.implementation_suggestions
        risks_and_challenges := d.risks_and_challenges
        required_resources := d.required_resources
        estimated_difficulty := d.estimated_difficulty
        estimated_timeline := d.estimated_timeline
        suggested_topics := d.suggested_topics
        evidence_anchors :=
          gr.supporting_papers.map
            (fun p => { title := p.title, url := "", anchor_type := "supporting" })
          ++ gr.conflicting_papers.map
            (fun p => { title := p.title, url := "", anchor_type := "conflicting" }) }

/-- Collaborator behaviour for one candidate's whole pipeline: the record creation
(a database commit that may raise), the generated uuid, the validation collaborators
and the expansion details. -/
structure GapPipelineOracle where
  createRecord : Except String Unit
  gapId : String
  validation : ValidateOracle
  details : Except String ExpandedDetails

/-- GapAnalysisService._process_single_gap: create the record, validate, expand when
valid; its catch-all maps any raised error to None, so the task never fails its
siblings. -/
def process_single_gap (o : GapPipelineOracle) (analysisId : String) (gap : InitialGap)
    (index : Nat) : Option ResearchGap :=
  match o.createRecord with
  | Except.error _ => none
  | Except.ok _ =>
    let gr := create_gap_record analysisId o.gapId gap index
    let res := validate_gap o.validation gap gr
    if res.2 then some (expand_gap_details o.details res.1) else none

/-- The observable outcome of the fail-open branch of _validate_gap: VALID status,
confidence 0.3, the error description as reasoning, and the gap reported valid. -/
def failOpenPost (out : ResearchGap × Bool) (e : String) : Prop :=
  out.1.validation_status = GapValidationStatus.VALID
  ∧ out.1.validation_confidence = some (3 / 10)
  ∧ out.1.validation_reasoning = some ("Validation error: " ++ e)
  ∧ out.2 = true

/-- C4: whatever step of _validate_gap raises — query generation, search, batch
extraction, or the verdict call — validation fails open: status VALID, confidence 0.3,
the error description as reasoning, and the gap is reported valid, so the owning Run is
never aborted; moreover the Gemini layer's own exhausted-retries default is the same
fail-open verdict with confidence 0.3. -/
theorem validate_gap_fail_open (o : ValidateOracle) (gap : InitialGap) (gr : ResearchGap)
    (e q : String) (r : PaperSearchResult) (related : List PaperSearchResult)
    (contents : List ExtractedContent) :
    (o.searchQuery = Except.error e → failOpenPost (validate_gap o gap gr) e)
    ∧ (o.searchQuery = Except.ok q → o.searchResults = Except.error e →
        failOpenPost (validate_gap o gap gr) e)
    ∧ (o.searchQuery = Except.ok q → o.searchResults = Except.ok (r :: related) →
        o.extractBatchCall = Except.error e → failOpenPost (validate_gap o gap gr) e)
    ∧ (o.searchQuery = Except.ok q → o.searchResults = Except.ok (r :: related) →
        o.extractBatchCall = Except.ok contents → o.verdict = Except.error e →
        failOpenPost (validate_gap o gap gr) e)
    ∧ gemini_validate_gap (Except.error e) =
        { is_valid := true
          confidence := 3 / 10
          reasoning := "Could not validate due to error"
          should_modify := false } := by
  obtain ⟨sq, sr, eb, vd⟩ := o
  refine ⟨?_, ?_, ?_, ?_, rfl⟩
  · intro h1
    simp only at h1
    subst h1
    simp [validate_gap, failOpen, failOpenPost]
  · intro h1 h2
    simp only at h1 h2
    subst h1; subst h2
    simp [validate_gap, failOpen, failOpenPost]
  · intro h1 h2 h3
    simp only at h1 h2 h3
    subst h1; subst h2; subst h3
    simp [validate_gap, failOpen, failOpenPost]
  · intro h1 h2 h3 h4
    simp only at h1 h2 h3 h4
    subst h1; subst h2; subst h3; subst h4
    simp [validate_gap, failOpen, failOpenPost]

/-- A sample candidate gap used in concrete witnesses. -/
def sampleGap : InitialGap :=
  { name := "scalability analysis"
    description := "missing scalability study"
    category := "empirical"
    reasoning := "authors note it"
    evidence := "section 5" }

/-- Concrete validation collaborators whose query-generation step raises. -/
def c4Oracle : ValidateOracle :=
  { searchQuery := Except.error "gemini timeout"
    searchResults := Except.ok []
    extractBatchCall := Except.ok []
    verdict := Except.error "unused" }

def c4Rec : ResearchGap := create_gap_record "analysis-4" "gap-4" sampleGap 0

/-- Witness for validate_gap_fail_open at a concrete raising oracle. -/
theorem validate_gap_fail_open_witness :
    failOpenPost (validate_gap c4Oracle sampleGap c4Rec) "gemini timeout" := by
  exact (validate_gap_fail_open c4Oracle sampleGap c4Rec "gemini timeout" "q"
    { title := "t" } [] []).1 rfl

/-- C5: once the AI verdict is obtained, _validate_gap branches exactly as claimed:
is_valid=false gives status INVALID and the gap is excluded from the report
(_process_single_gap yields None); is_valid=true with should_modify=true gives status
MODIFIED, a history entry recording the original description and the suggested change,
and the description replaced by modification_suggestion when a truthy (non-None,
non-empty) one is present; is_valid=true with should_modify=false gives status VALID
with the description unchanged. -/
theorem validate_gap_verdict_branching (vo : ValidateOracle)
    (d : Except String ExpandedDetails) (analysisId gapId : String) (gap : InitialGap)
    (index : Nat) (q : String) (r : PaperSearchResult)
    (related : List PaperSearchResult) (contents : List ExtractedContent)
    (v : ValidationResult)
    (hq : vo.searchQuery = Except.ok q)
    (hs : vo.searchResults = Except.ok (r :: related))
    (he : vo.extractBatchCall = Except.ok contents)
    (hv : vo.verdict = Except.ok v) :
    (v.is_valid = false →
      (validate_gap vo gap (create_gap_record analysisId gapId gap index)).1.validation_status
          = GapValidationStatus.INVALID
      ∧ (validate_gap vo gap (create_gap_record analysisId gapId gap index)).2 = false
      ∧ process_single_gap
          { createRecord := Except.ok (), gapId := gapId, validation := vo, details := d }
          analysisId gap index = none)
    ∧ (v.is_valid = true → v.should_modify = true →
      (validate_gap vo gap (create_gap_record analysisId gapId gap index)).1.validation_status
          = GapValidationStatus.MODIFIED
      ∧ (validate_gap vo gap (create_gap_record analysisId gapId gap index)).1.modification_history
          = (create_gap_record analysisId gapId gap index).modification_history
            ++ [{ original := gap.description, modification := v.modification_suggestion }]
      ∧ (validate_gap vo gap (create_gap_record analysisId gapId gap index)).1.description
          = (match v.modification_suggestion with
             | some s => if s = "" then gap.description else s
             | none => gap.description)
      ∧ (validate_gap vo gap (create_gap_record analysisId gapId gap index)).2 = true)
    ∧ (v.is_valid = true → v.should_modify = false →
      (validate_gap vo gap (create_gap_record analysisId gapId gap index)).1.validation_status
          = GapValidationStatus.VALID
      ∧ (validate_gap vo gap (create_gap_record analysisId gapId gap index)).1.description
          = gap.description
      ∧ (validate_gap vo gap (create_gap_record analysisId gapId gap index)).1.modification_history
          = []
      ∧ (validate_gap vo gap (create_gap_record analysisId gapId gap index)).2 = true) := by
  obtain ⟨sq, sr, eb, vd⟩ := vo
  simp only at hq hs he hv
  subst hq; subst hs; subst he; subst hv
  refine ⟨?_, ?_, ?_⟩
  · intro hvalid
    refine ⟨?_, ?_, ?_⟩ <;>
      simp [validate_gap, process_single_gap, create_gap_record, hvalid]
  · intro hvalid hmod
    cases hsug : v.modification_suggestion with
    | none => simp [validate_gap, create_gap_record, hvalid, hmod, hsug]
    | some s =>
      by_cases hs : s = "" <;>
        simp [validate_gap, create_gap_record, hvalid, hmod, hsug, hs]
  · intro hvalid hmod
    refine ⟨?_, ?_, ?_, ?_⟩ <;>
      simp [validate_gap, create_gap_record, hvalid, hmod]

/-- Concrete validation collaborators delivering a modify verdict. -/
def c5Oracle : ValidateOracle :=
  { searchQuery := Except.ok "q5"
    searchResults := Except.ok [{ title := "related paper" }]
    extractBatchCall := Except.ok [{ title := "related paper" }]
    verdict := Except.ok
      { is_valid := true
        confidence := 7 / 10
        reasoning := "partially addressed"
        should_modify := true
        modification_suggestion := some "sharper gap statement" } }

/-- Witness for validate_gap_verdict_branching on the modify branch. -/
theorem validate_gap_verdict_branching_witness :
    (validate_gap c5Oracle sampleGap
        (create_gap_record "analysis-5" "gap-5" sampleGap 1)).1.validation_status
      = GapValidationStatus.MODIFIED
    ∧ (validate_gap c5Oracle sampleGap
        (create_gap_record "analysis-5" "gap-5" sampleGap 1)).1.modification_history
      = (create_gap_record "analysis-5" "gap-5" sampleGap 1).modification_history
        ++ [{ original := sampleGap.description
              modification := some "sharper gap statement" }] := by
  have h := (validate_gap_verdict_branching c5Oracle (Except.error "unused")
    "analysis-5" "gap-5" sampleGap 1 "q5" { title := "related paper" } []
    [{ title := "related paper" }]
    { is_valid := true
      confidence := 7 / 10
      reasoning := "partially addressed"
      should_modify := true
      modification_suggestion := some "sharper gap statement" }
    rfl rfl rfl rfl).2.1 rfl rfl
  exact ⟨h.1, h.2.1⟩

/-- Concrete validation collaborators finding zero surviving results; the verdict
oracle is deliberately an invalidating one, so the counterexample also shows that the
verdict is never consulted on this path. -/
def c7Oracle : ValidateOracle :=
  { searchQuery := Except.ok "q7"
    searchResults := Except.ok []
    extractBatchCall := Except.error "grobid down"
    verdict := Except.ok
      { is_valid := false, confidence := 0, reasoning := "", should_modify := false } }

def c7Rec : ResearchGap := create_gap_record "analysis-7" "gap-7" sampleGap 0

/-- C7 counterexample: with zero surviving results the gap is marked VALID with
confidence 0.5, the timestamp is recorded and the gap is reported valid, but the
reasoning "no related work found" is only logged — the stored validation_reasoning
stays None, contradicting the claim. -/
theorem no_related_work_reasoning_cex :
    (validate_gap c7Oracle sampleGap c7Rec).1.validation_status = GapValidationStatus.VALID
    ∧ (validate_gap c7Oracle sampleGap c7Rec).1.validation_confidence = some (1 / 2)
    ∧ (validate_gap c7Oracle sampleGap c7Rec).1.validated_at_set = true
    ∧ (validate_gap c7Oracle sampleGap c7Rec).2 = true
    ∧ (validate_gap c7Oracle sampleGap c7Rec).1.validation_reasoning = none
    ∧ (validate_gap c7Oracle sampleGap c7Rec).1.validation_reasoning
        ≠ some "no related work found" := by
  refine ⟨rfl, rfl, rfl, rfl, rfl, by decide⟩

/-- C7 amended: with zero surviving results _validate_gap marks the gap VALID with
confidence exactly 0.5, records the validation timestamp and reports the gap valid
without consulting extraction or the AI verdict (the result does not depend on those
collaborators); the "no related work found" explanation is only logged, the stored
reasoning is left unchanged. -/
theorem validate_gap_no_results (vo : ValidateOracle) (gap : InitialGap)
    (gr : ResearchGap) (q : String) (eb : Except String (List ExtractedContent))
    (vd : Except String ValidationResult)
    (hq : vo.searchQuery = Except.ok q)
    (hs : vo.searchResults = Except.ok []) :
    validate_gap vo gap gr =
      ({ gr with
          validation_status := GapValidationStatus.VALID
          validation_query := some q
          validation_confidence := some (1 / 2)
          validated_at_set := true }, true)
    ∧ validate_gap { vo with extractBatchCall := eb, verdict := vd } gap gr
        = validate_gap vo gap gr
    ∧ (validate_gap vo gap gr).1.validation_reasoning = gr.validation_reasoning := by
  obtain ⟨sq, sr, veb, vvd⟩ := vo
  simp only at hq hs
  subst hq; subst hs
  refine ⟨rfl, rfl, rfl⟩

/-- Witness for validate_gap_no_results at the concrete zero-result oracle. -/
theorem validate_gap_no_results_witness :
    validate_gap c7Oracle sampleGap c7Rec =
      ({ c7Rec with
          validation_status := GapValidationStatus.VALID
          validation_query := some "q7"
          validation_confidence := some (1 / 2)
          validated_at_set := true }, true) := by
  exact (validate_gap_no_results c7Oracle sampleGap c7Rec "q7"
    (Except.ok []) (Except.error "x") rfl rfl).1

/-! ## Orchestrator (gap_analysis_service.py analyze_paper) -/

/-- GapStatus of app/model/gap_models.py. -/
inductive GapStatus
  | PROCESSING
  | COMPLETED
  | FAILED
deriving DecidableEq

/-- GapAnalysis of app/model/gap_models.py, restricted to what analyze_paper reads or
writes; the generated database id is a parameter, timestamps are set-flags. -/
structure GapAnalysisRecord where
  id : String
  paper_id : String
  paper_extraction_id : String
  request_id : String
  correlation_id : String
  status : GapStatus
  total_gaps_identified : Nat := 0
  valid_gaps_count : Nat := 0
  invalid_gaps_count : Nat := 0
  error_message : Option String := none
  started_at_set : Bool := true
  completed_at_set : Bool := false
deriving DecidableEq

/-- GapAnalysisRequest from app/schemas/gap_schemas.py: the pydantic model declares
exactly the camelCase fields paperId, paperExtractionId, correlationId, requestId. -/
structure GapAnalysisRequest where
  paperId : String
  paperExtractionId : String
  correlationId : String
  requestId : String
deriving DecidableEq

/-- Python attribute lookup on a GapAnalysisRequest instance.  Only the four declared
camelCase names resolve; any other name — in particular the snake_case names the
service reads — raises AttributeError, modelled as none.  populate_by_name affects
parsing only, not attribute access, and no aliases are declared. -/
def requestAttr (req : GapAnalysisRequest) : String → Option String
  | "paperId" => some req.paperId
  | "paperExtractionId" => some req.paperExtractionId
  | "correlationId" => some req.correlationId
  | "requestId" => some req.requestId
  | _ => none

/-- GapAnalysisResponse from app/schemas/gap_schemas.py (the gaps payload, assembled
per gap by prepare_gap_detail below, is not duplicated here). -/
structure GapAnalysisResponse where
  request_id : String
  correlation_id : String
  status : String
  message : String
  gap_analysis_id : Option String := none
  total_gaps : Nat := 0
  valid_gaps : Nat := 0
  error : Option String := none
  completed_at_set : Bool := false
deriving DecidableEq

/-- Observable outcome of one analyze_paper run: the returned response, the final
persisted Run record, and the sequence of values written to the Run's status field. -/
structure AnalyzeOutcome where
  response : GapAnalysisResponse
  analysis : Option GapAnalysisRecord
  statusWrites : List GapStatus
deriving DecidableEq

/-- Collaborator behaviour during one analyze_paper run: the record-creation commit,
the generated analysis id, the paper fetch (ok false = paper absent), the initial-gap
generation, the per-candidate pipeline collaborators, and the database reads performed
while preparing the response. -/
structure OrchestratorOracle where
  createCommit : Except String Unit
  analysisDbId : String
  fetchPaper : Except String Bool
  initialGaps : Except String (List InitialGap)
  gapPipeline : Nat → InitialGap → GapPipelineOracle
  responseFetch : Except String Unit

/-- GapAnalysisService._mark_analysis_failed: unconditionally writes FAILED, the error
text and the completion time; there is no guard on the current status. -/
def mark_analysis_failed (a : GapAnalysisRecord) (e : String) : GapAnalysisRecord :=
  { a with
      status := GapStatus.FAILED
      error_message := some e
      completed_at_set := true }

/-- GapAnalysisService._update_analysis_summary: counts, COMPLETED, completion time. -/
def update_analysis_summary (a : GapAnalysisRecord) (total valid : Nat) :
    GapAnalysisRecord :=
  { a with
      total_gaps_identified := total
      valid_gaps_count := valid
      invalid_gaps_count := total - valid
      status := GapStatus.COMPLETED
      completed_at_set := true }

/-- The FAILED response built in the except branch of analyze_paper. -/
def failedResponse (requestId correlationId e : String) : GapAnalysisResponse :=
  { request_id := requestId
    correlation_id := correlationId
    status := "FAILED"
    message := "Analysis failed: " ++ e
    error := some e }

/-- The except branch of analyze_paper: mark the Run FAILED when one was created, then
return the structured FAILED response. -/
def failedOutcome (requestId correlationId : String)
    (analysis : Option GapAnalysisRecord) (writes : List GapStatus) (e : String) :
    AnalyzeOutcome :=
  match analysis with
  | none =>
    { response := failedResponse requestId correlationId e
      analysis := none
      statusWrites := writes }
  | some a =>
    { response := failedResponse requestId correlationId e
      analysis := some (mark_analysis_failed a e)
      statusWrites := writes ++ [GapStatus.FAILED] }

/-- Modelled from the spec: the Concurrency Controller of section 4.3
(AsyncBatchProcessor of app/utils/helpers.py is not under src): results come back in
original submission order, a failed task maps to an absent result without aborting the
call, and the batch size / concurrency bound do not affect the value returned.  Since
_process_single_gap already catches every error, each task's outcome is its Option
result. -/
def batchProcess (taskResults : List (Option ResearchGap)) : List (Option ResearchGap) :=
  taskResults

/-- GapAnalysisService._prepare_response at Run level: the SUCCESS envelope built from
the Run record (per-gap details are modelled by prepare_gap_detail). -/
def prepare_response (a : GapAnalysisRecord) (validGaps : List ResearchGap) :
    GapAnalysisResponse :=
  { request_id := a.request_id
    correlation_id := a.correlation_id
    status := "SUCCESS"
    message := "Successfully identified " ++ toString validGaps.length
                 ++ " valid research gaps"
    gap_analysis_id := some a.id
    total_gaps := a.total_gaps_identified
    valid_gaps := a.valid_gaps_count
    completed_at_set := a.completed_at_set }

/-- GapAnalysisService.analyze_paper of app/services/gap_analysis_service.py, with the
request's fields read directly as the service intends (the snake_case attribute slip is
modelled separately in analyze_paper_py).  Mirrors the source: create the Run, fetch
the paper (absence raises "Paper not found"), generate candidates (an empty list raises
"No gaps could be identified"), process every candidate through the batch processor,
update the summary to COMPLETED, then prepare the response; any error lands in the
except branch, which marks the Run FAILED and returns the FAILED response. -/
def analyze_paper (o : OrchestratorOracle) (req : GapAnalysisRequest) : AnalyzeOutcome :=
  match o.createCommit with
  | Except.error e => failedOutcome req.requestId req.correlationId none [] e
  | Except.ok _ =>
    let a0 : GapAnalysisRecord :=
      { id := o.analysisDbId
        paper_id := req.paperId
        paper_extraction_id := req.paperExtractionId
        request_id := req.requestId
        correlation_id := req.correlationId
        status := GapStatus.PROCESSING }
    let w0 := [GapStatus.PROCESSING]
    match o.fetchPaper with
    | Except.error e => failedOutcome req.requestId req.correlationId (some a0) w0 e
    | Except.ok false =>
      failedOutcome req.requestId req.correlationId (some a0) w0 "Paper not found"
    | Except.ok true =>
      match o.initialGaps with
      | Except.error e => failedOutcome req.requestId req.correlationId (some a0) w0 e
      | Except.ok [] =>
        failedOutcome req.requestId req.correlationId (some a0) w0
          "No gaps could be identified"
      | Except.ok (g :: gs) =>
        let gapResults := batchProcess
          ((g :: gs).enum.map
            (fun p => process_single_gap (o.gapPipeline p.1 p.2) o.analysisDbId p.2 p.1))
        let validGaps := gapResults.filterMap id
        let a1 := update_analysis_summary a0 (g :: gs).length validGaps.length
        let w1 := w0 ++ [GapStatus.COMPLETED]
        match o.responseFetch with
        | Except.error e => failedOutcome req.requestId req.correlationId (some a1) w1 e
        | Except.ok _ =>
          { response := prepare_response a1 validGaps
            analysis := some a1
            statusWrites := w1 }

/-- analyze_paper as the source actually executes it, attribute access included.
The try block's first statement, _create_gap_analysis, reads request.paper_id —
which does not exist on the pydantic model — so every run raises AttributeError into
the except branch; the handler then reads request.request_id (and then
request.correlation_id), which raises again, and that second AttributeError escapes
analyze_paper.  Except.error is a raised exception escaping to the caller. -/
def analyze_paper_py (o : OrchestratorOracle) (req : GapAnalysisRequest) :
    Except String AnalyzeOutcome :=
  match requestAttr req "paper_id", requestAttr req "paper_extraction_id",
        requestAttr req "correlation_id", requestAttr req "request_id" with
  | some _, some _, some _, some _ => Except.ok (analyze_paper o req)
  | _, _, _, _ =>
    match requestAttr req "request_id", requestAttr req "correlation_id" with
    | some _, some _ =>
      Except.ok (failedOutcome req.requestId req.correlationId none []
        "AttributeError: GapAnalysisRequest has no attribute paper_id")
    | none, _ =>
      Except.error "AttributeError: GapAnalysisRequest has no attribute request_id"
    | some _, none =>
      Except.error "AttributeError: GapAnalysisRequest has no attribute correlation_id"

/-- C1 (refuted by the code): the orchestrator boundary contract — catch, mark FAILED,
return a structured FAILED response carrying the request's ids — is the code's visible
intent (third conjunct onwards, proved of the intended pipeline), but the schema
declares camelCase fields while the service reads snake_case attributes, so the except
handler itself raises: for every request and every collaborator behaviour,
analyze_paper as executed raises AttributeError instead of returning a response. -/
theorem analyze_paper_attribute_error (o : OrchestratorOracle)
    (req : GapAnalysisRequest) :
    analyze_paper_py o req
      = Except.error "AttributeError: GapAnalysisRequest has no attribute request_id"
    ∧ requestAttr req "paper_id" = none
    ∧ requestAttr req "request_id" = none
    ∧ requestAttr req "requestId" = some req.requestId
    ∧ (analyze_paper o req).response.request_id = req.requestId
    ∧ (analyze_paper o req).response.correlation_id = req.correlationId
    ∧ ((analyze_paper o req).response.status = "SUCCESS"
       ∨ (analyze_paper o req).response.status = "FAILED") := by
  refine ⟨rfl, rfl, rfl, rfl, ?_, ?_, ?_⟩ <;>
  · obtain ⟨cc, di, fp, ig, gp, rf⟩ := o
    cases cc with
    | error e => simp [analyze_paper, failedOutcome, failedResponse]
    | ok u =>
      cases fp with
      | error e => simp [analyze_paper, failedOutcome, failedResponse]
      | ok found =>
        cases found <;> cases ig with
        | error e => simp [analyze_paper, failedOutcome, failedResponse]
        | ok gaps =>
          cases gaps <;> cases rf <;>
            simp [analyze_paper, failedOutcome, failedResponse, prepare_response,
              update_analysis_summary, mark_analysis_failed]

/-- The write-once property the spec claims for a Run's terminal status: after any
write of COMPLETED or FAILED, every later write carries the same value. -/
def terminalSetAtMostOnce (writes : List GapStatus) : Prop :=
  ∀ pre s post, writes = pre ++ s :: post →
    (s = GapStatus.COMPLETED ∨ s = GapStatus.FAILED) → ∀ t ∈ post, t = s

/-- Concrete request for the orchestrator counterexamples. -/
def c2Req : GapAnalysisRequest :=
  { paperId := "paper-2"
    paperExtractionId := "extraction-2"
    correlationId := "corr-2"
    requestId := "req-2" }

/-- Per-candidate collaborators that validate the gap (zero search results). -/
def c2PipelineOracle : GapPipelineOracle :=
  { createRecord := Except.ok ()
    gapId := "gap-2"
    validation :=
      { searchQuery := Except.ok "q2"
        searchResults := Except.ok []
        extractBatchCall := Except.ok []
        verdict := Except.error "unused" }
    details := Except.ok {} }

/-- Orchestrator collaborators whose run succeeds all the way through the summary
update and then raises while the response is being prepared. -/
def c2Oracle : OrchestratorOracle :=
  { createCommit := Except.ok ()
    analysisDbId := "analysis-2"
    fetchPaper := Except.ok true
    initialGaps := Except.ok [sampleGap]
    gapPipeline := fun _ _ => c2PipelineOracle
    responseFetch := Except.error "database error during response preparation" }

/-- C2 counterexample: a concrete run whose response preparation raises after the
summary update writes PROCESSING, then COMPLETED, then FAILED to the same Run —
the terminal status is overwritten, so it is not set at most once. -/
theorem terminal_status_overwritten_cex :
    (analyze_paper c2Oracle c2Req).statusWrites
      = [GapStatus.PROCESSING, GapStatus.COMPLETED, GapStatus.FAILED]
    ∧ (analyze_paper c2Oracle c2Req).analysis.map GapAnalysisRecord.status
      = some GapStatus.FAILED
    ∧ ¬ terminalSetAtMostOnce (analyze_paper c2Oracle c2Req).statusWrites := by
  have h1 : (analyze_paper c2Oracle c2Req).statusWrites
      = [GapStatus.PROCESSING, GapStatus.COMPLETED, GapStatus.FAILED] := rfl
  refine ⟨h1, rfl, ?_⟩
  intro h
  have h2 := h [GapStatus.PROCESSING] GapStatus.COMPLETED [GapStatus.FAILED]
    (by rw [h1]; rfl) (Or.inl rfl) GapStatus.FAILED (by simp)
  exact absurd h2 (by decide)

/-- C2 amended: a Run's terminal status is not write-once: _mark_analysis_failed
overwrites whatever status the Run has, with no guard, so an exception raised after
the summary update — here while preparing the response — rewrites a COMPLETED Run to
FAILED carrying the late error. -/
theorem mark_failed_overwrites_completed (o : OrchestratorOracle)
    (req : GapAnalysisRequest) (g : InitialGap) (gs : List InitialGap) (e : String)
    (hc : o.createCommit = Except.ok ())
    (hf : o.fetchPaper = Except.ok true)
    (hg : o.initialGaps = Except.ok (g :: gs))
    (hr : o.responseFetch = Except.error e) :
    (analyze_paper o req).statusWrites
      = [GapStatus.PROCESSING, GapStatus.COMPLETED, GapStatus.FAILED]
    ∧ (analyze_paper o req).analysis.map GapAnalysisRecord.status
      = some GapStatus.FAILED
    ∧ (analyze_paper o req).analysis.map GapAnalysisRecord.error_message
      = some (some e)
    ∧ (∀ a : GapAnalysisRecord, (mark_analysis_failed a e).status = GapStatus.FAILED) := by
  obtain ⟨cc, di, fp, ig, gp, rf⟩ := o
  simp only at hc hf hg hr
  subst hc; subst hf; subst hg; subst hr
  exact ⟨rfl, rfl, rfl, fun a => rfl⟩

/-- Witness for mark_failed_overwrites_completed at the concrete late-failing run. -/
theorem mark_failed_overwrites_completed_witness :
    (analyze_paper c2Oracle c2Req).analysis.map GapAnalysisRecord.error_message
      = some (some "database error during response preparation") := by
  exact (mark_failed_overwrites_completed c2Oracle c2Req sampleGap []
    "database error during response preparation" rfl rfl rfl rfl).2.2.1

/-! ## Response preparation scores (_prepare_response) -/

/-- ResearchTopic from app/schemas/gap_schemas.py as assembled in _prepare_response. -/
structure ResearchTopicOut where
  title : Option String := none
  description : Option String := none
  research_questions : List String := []
  methodology_suggestions : Option String := none
  expected_outcomes : Option String := none
  relevance_score : ℚ
deriving DecidableEq

/-- Python x or 0.5 on an optional numeric column, as written in _prepare_response
(gap.validation_confidence or 0.5, topic.relevance_score or 0.5): None and 0.0 are
falsy, so both are replaced by 0.5. -/
def pyOrHalf (v : Option ℚ) : ℚ :=
  match v with
  | none => 1 / 2
  | some x => if x = 0 then 1 / 2 else x

theorem pyOrHalf_ne_zero (v : Option ℚ) : pyOrHalf v ≠ 0 := by
  cases v with
  | none => norm_num [pyOrHalf]
  | some x =>
    by_cases h : x = 0
    · norm_num [pyOrHalf, h]
    · simp [pyOrHalf, h]

/-- GapDetail from app/schemas/gap_schemas.py. -/
structure GapDetail where
  gap_id : String
  name : String
  description : String
  category : String
  validation_status : GapValidationStatus
  confidence_score : ℚ
  potential_impact : Option String := none
  research_hints : Option String := none
  implementation_suggestions : Option String := none
  risks_and_challenges : Option String := none
  required_resources : Option String := none
  estimated_difficulty : Option String := none
  estimated_timeline : Option String := none
  evidence_anchors : List EvidenceAnchor := []
  supporting_papers_count : Nat := 0
  conflicting_papers_count : Nat := 0
  suggested_topics : List ResearchTopicOut := []
deriving DecidableEq

/-- The per-topic conversion inside GapAnalysisService._prepare_response. -/
def prepare_topic (t : GapTopic) : ResearchTopicOut :=
  { title := t.title
    description := t.description
    research_questions := t.research_questions
    methodology_suggestions := t.methodology_suggestions
    expected_outcomes := t.expected_outcomes
    relevance_score := pyOrHalf t.relevance_score }

/-- The per-gap conversion inside GapAnalysisService._prepare_response; topics is the
database read of the gap's GapTopic rows. -/
def prepare_gap_detail (g : ResearchGap) (topics : List GapTopic) : GapDetail :=
  { gap_id := g.gap_id
    name := g.name
    description := g.description
    category := g.category
    validation_status := g.validation_status
    confidence_score := pyOrHalf g.validation_confidence
    potential_impact := g.potential_impact
    research_hints := g.research_hints
    implementation_suggestions := g.implementation_suggestions
    risks_and_challenges := g.risks_and_challenges
    required_resources := g.required_resources
    estimated_difficulty := g.estimated_difficulty
    estimated_timeline := g.estimated_timeline
    evidence_anchors := g.evidence_anchors
    supporting_papers_count := g.supporting_papers.length
    conflicting_papers_count := g.conflicting_papers.length
    suggested_topics := topics.map prepare_topic }

/-- C10: a reported gap's confidence_score equals its stored validation confidence
unless that value is unset or exactly 0, in which case 0.5 is reported; the same for a
topic's relevance_score; topics are converted positionally; and neither score can be 0
in the outbound message. -/
theorem prepare_response_score_defaults (g : ResearchGap) (topics : List GapTopic)
    (x : ℚ) (i : Nat) (t : GapTopic) :
    ((g.validation_confidence = none ∨ g.validation_confidence = some 0) →
        (prepare_gap_detail g topics).confidence_score = 1 / 2)
    ∧ (g.validation_confidence = some x → x ≠ 0 →
        (prepare_gap_detail g topics).confidence_score = x)
    ∧ (prepare_gap_detail g topics).confidence_score ≠ 0
    ∧ (prepare_gap_detail g topics).suggested_topics.get? i
        = (topics.get? i).map prepare_topic
    ∧ ((t.relevance_score = none ∨ t.relevance_score = some 0) →
        (prepare_topic t).relevance_score = 1 / 2)
    ∧ (∀ y : ℚ, t.relevance_score = some y → y ≠ 0 →
        (prepare_topic t).relevance_score = y)
    ∧ (∀ d ∈ (prepare_gap_detail g topics).suggested_topics, d.relevance_score ≠ 0) := by
  refine ⟨?_, ?_, ?_, ?_, ?_, ?_, ?_⟩
  · rintro (h | h) <;> simp [prepare_gap_detail, pyOrHalf, h]
  · intro h hx; simp [prepare_gap_detail, pyOrHalf, h, hx]
  · exact pyOrHalf_ne_zero g.validation_confidence
  · simp [prepare_gap_detail]
  · rintro (h | h) <;> simp [prepare_topic, pyOrHalf, h]
  · intro y h hy; simp [prepare_topic, pyOrHalf, h, hy]
  · intro d hd
    simp only [prepare_gap_detail, List.mem_map] at hd
    obtain ⟨t0, _, ht⟩ := hd
    subst ht
    exact pyOrHalf_ne_zero t0.relevance_score

/-- A stored gap whose validation confidence is exactly 0, for the score witness. -/
def c10Gap : ResearchGap :=
  { create_gap_record "analysis-10" "gap-10" sampleGap 0 with
      validation_confidence := some 0 }

/-- Witness for prepare_response_score_defaults: a stored confidence of exactly 0 is
reported as 0.5. -/
theorem prepare_response_score_defaults_witness :
    (prepare_gap_detail c10Gap []).confidence_score = 1 / 2 := by
  exact (prepare_response_score_defaults c10Gap [] 1 0
    { relevance_score := none }).1 (Or.inr rfl)

end GapAnalyzer
